import Mathlib

/-!
Verification of the manifest-resolution core of a container-deployment CLI.

The Go source under verification is the `manifest` package: the workload
manifest data model, YAML union decoding, per-kind default construction,
environment-override merging (`ApplyEnv`), build-context resolution
(`BuildConfig`), and the container health-check cascade.

Modelling conventions:
* a Go pointer field (`*T`) and a nil-able map or slice become `Option`;
  `none` is Go `nil`;
* a Go `map[string]T` becomes an association list `List (String × T)`;
* `time.Duration` becomes `Int` counting nanoseconds;
* fallible Go functions return `Except`;
* struct fields that are external collaborator handles (the template
  parser) carry no merge or resolution semantics and are omitted.
-/

/-- Workload holds the basic data that every workload manifest file needs
to have: `name` and `type`. -/
structure Workload where
  name : Option String
  type : Option String
deriving DecidableEq

/-- DockerBuildArgs represents the options specifiable under the "build"
field of Docker Compose services. -/
structure DockerBuildArgs where
  context : Option String
  dockerfile : Option String
  args : Option (List (String × String))
  target : Option String
  cacheFrom : Option (List String)
deriving DecidableEq

/-- The all-nil `DockerBuildArgs` value (the Go zero value). -/
def DockerBuildArgs.zero : DockerBuildArgs :=
  { context := none, dockerfile := none, args := none, target := none, cacheFrom := none }

/-- `isEmpty` holds when every field of the build arguments is nil. -/
def DockerBuildArgs.isEmpty (b : DockerBuildArgs) : Bool :=
  b.context.isNone && b.dockerfile.isNone && b.args.isNone &&
    b.target.isNone && b.cacheFrom.isNone

/-- Mirrors `aws.StringValue`: a nil string pointer reads as `""`. -/
def stringValue (s : Option String) : String := s.getD ""

/-- BuildArgsOrString supports a build field that is either a bare string
(scalar form) or a structured `DockerBuildArgs` map. -/
structure BuildArgsOrString where
  buildString : Option String
  buildArgs : DockerBuildArgs
deriving DecidableEq

/-- The Go zero value of `BuildArgsOrString`. -/
def BuildArgsOrString.zero : BuildArgsOrString :=
  { buildString := none, buildArgs := DockerBuildArgs.zero }

/-- `isEmpty` treats a nil build string and a string pointer to `""` alike
(`aws.StringValue(b.BuildString) == ""`), and requires the structured
arguments to be empty as well. -/
def BuildArgsOrString.isEmpty (b : BuildArgsOrString) : Bool :=
  stringValue b.buildString == "" && b.buildArgs.isEmpty

/-- `reflect.Value.IsZero` on a `BuildArgsOrString`: every field is its
zero value.  Unlike `isEmpty`, a non-nil pointer to `""` is not zero. -/
def BuildArgsOrString.isZero (b : BuildArgsOrString) : Bool :=
  b.buildString.isNone && b.buildArgs.isEmpty

/-- Image represents the workload's container image: a `build` form or a
`location` form, plus the `labels` and `depends_on` maps. -/
structure Image where
  build : BuildArgsOrString
  location : Option String
  dockerLabels : Option (List (String × String))
  dependsOn : Option (List (String × String))
deriving DecidableEq

/-- The Go zero value of `Image`. -/
def Image.zero : Image :=
  { build := BuildArgsOrString.zero, location := none, dockerLabels := none, dependsOn := none }

/-- ContainerHealthCheck holds the configuration to determine if the
service container is healthy.  Durations are nanosecond counts. -/
structure ContainerHealthCheck where
  command : Option (List String)
  interval : Option Int
  retries : Option Int
  timeout : Option Int
  startPeriod : Option Int
deriving DecidableEq

/-- ExecuteCommandConfig represents the configuration for ECS Execute
Command. -/
structure ExecuteCommandConfig where
  enable : Option Bool
deriving DecidableEq

/-- IsEmpty returns whether ExecuteCommandConfig is empty. -/
def ExecuteCommandConfig.IsEmpty (e : ExecuteCommandConfig) : Bool :=
  e.enable.isNone

/-- ExecuteCommand supports an exec field that is either a bare bool
(scalar form) or a structured `ExecuteCommandConfig`. -/
structure ExecuteCommand where
  enable : Option Bool
  config : ExecuteCommandConfig
deriving DecidableEq

/-- Logging holds configuration for Firelens to route logs. -/
structure Logging where
  image : Option String
  destination : Option (List (String × String))
  enableMetadata : Option Bool
  secretOptions : Option (List (String × String))
  configFile : Option String
deriving DecidableEq

/-- SidecarConfig represents the configurable options for setting up a
sidecar container. -/
structure SidecarConfig where
  port : Option String
  image : Option String
  credsParam : Option String
deriving DecidableEq

/-- vpcConfig mirrors the placement configuration of the network block.
Its source file is not under src/; the field is the one written by the
defaulting constructors (`Placement`). -/
structure vpcConfig where
  placement : Option String
deriving DecidableEq

/-- NetworkConfig represents options for network connection to AWS
resources within a VPC. -/
structure NetworkConfig where
  vpc : Option vpcConfig
deriving DecidableEq

/-- Modelled from the spec: the autoscaling policy half of the `count`
union ("count (union: fixed replica integer vs. autoscaling policy)");
its source file is not under src/.  Representative optional sub-fields
stand for the policy's knobs; only set-ness and equality matter to the
merge rules. -/
structure Autoscaling where
  range : Option String
  cpuPercentage : Option Int
  memoryPercentage : Option Int
deriving DecidableEq

/-- The zero `Autoscaling` value. -/
def Autoscaling.zero : Autoscaling :=
  { range := none, cpuPercentage := none, memoryPercentage := none }

/-- `IsEmpty`: no sub-field of the policy is set. -/
def Autoscaling.IsEmpty (a : Autoscaling) : Bool :=
  a.range.isNone && a.cpuPercentage.isNone && a.memoryPercentage.isNone

/-- Modelled from the spec: the `Count` union — a fixed replica integer
(`Value`) or an autoscaling policy; its source file is not under src/. -/
structure Count where
  value : Option Int
  autoscaling : Autoscaling
deriving DecidableEq

/-- The empty `Count` sentinel: no sub-fields set. -/
def Count.IsEmpty (c : Count) : Bool :=
  c.value.isNone && c.autoscaling.IsEmpty

/-- TaskConfig represents the resource boundaries and environment
variables for the containers in the task.  The `ExecuteCommand` member is
written by the defaulting constructors in src/. -/
structure TaskConfig where
  cpu : Option Int
  memory : Option Int
  count : Count
  Variables : Option (List (String × String))
  secrets : Option (List (String × String))
  executeCommand : ExecuteCommand
deriving DecidableEq

/-- Modelled from the spec: `ServiceImageWithPort` — an image plus an
exposed port ("ImageSpec" with the backend service's `port`); its source
file is not under src/ but its `Image` and `Port` members are read by the
code under src/. -/
structure ServiceImageWithPort where
  image : Image
  port : Option Nat
deriving DecidableEq

/-- imageWithPortAndHealthcheck is the backend service's image config:
a `ServiceImageWithPort` plus an optional container health check. -/
structure imageWithPortAndHealthcheck where
  serviceImageWithPort : ServiceImageWithPort
  healthCheck : Option ContainerHealthCheck
deriving DecidableEq

/-- ImageWithHealthcheck is the worker service's image config: an `Image`
plus an optional container health check. -/
structure ImageWithHealthcheck where
  image : Image
  healthCheck : Option ContainerHealthCheck
deriving DecidableEq

/-- TopicSubscription represents the configurable options for setting up
an SNS topic subscription. -/
structure TopicSubscription where
  name : String
  service : String
deriving DecidableEq

/-- SubscribeConfig represents the configurable options for setting up
subscriptions. -/
structure SubscribeConfig where
  topics : Option (List TopicSubscription)
deriving DecidableEq

/-- BackendServiceConfig holds the backend service configuration that can
be overridden per environment.  The `ImageOverride` inline member of the
Go struct is omitted: its type is not under src/, the spec does not
describe it, and no property below touches it. -/
structure BackendServiceConfig where
  imageConfig : imageWithPortAndHealthcheck
  taskConfig : TaskConfig
  logging : Option Logging
  sidecars : Option (List (String × SidecarConfig))
  network : NetworkConfig
deriving DecidableEq

/-- BackendService holds the configuration to create a backend service
manifest.  `environments` maps an environment name to an optional partial
override (`nil` entries are representable). -/
structure BackendService where
  workload : Workload
  config : BackendServiceConfig
  environments : List (String × Option BackendServiceConfig)
deriving DecidableEq

/-- WorkerServiceConfig holds the worker service configuration that can
be overridden per environment.  As for the backend service, the
`ImageOverride` inline member is omitted. -/
structure WorkerServiceConfig where
  imageConfig : ImageWithHealthcheck
  taskConfig : TaskConfig
  logging : Option Logging
  sidecars : Option (List (String × SidecarConfig))
  subscribe : Option SubscribeConfig
  network : Option NetworkConfig
deriving DecidableEq

/-- WorkerService holds the configuration to create a worker service. -/
structure WorkerService where
  workload : Workload
  config : WorkerServiceConfig
  environments : List (String × Option WorkerServiceConfig)
deriving DecidableEq

/-- Replaces `dst` by `src` when `src` is set (Go: `if src != nil { dst = src }`). -/
def overrideIfSet (dst src : Option α) : Option α :=
  match src with
  | some v => some v
  | none => dst

/-- Fills `dst` from `src` only when `dst` is unset
(Go: `if dst == nil && src != nil { dst = src }`). -/
def fillIfUnset (dst src : Option α) : Option α :=
  match dst with
  | some v => some v
  | none => src

/-- apply overrides the healthcheck's fields if `other` has them set. -/
def ContainerHealthCheck.apply (hc other : ContainerHealthCheck) : ContainerHealthCheck :=
  { command := overrideIfSet hc.command other.command
    interval := overrideIfSet hc.interval other.interval
    retries := overrideIfSet hc.retries other.retries
    timeout := overrideIfSet hc.timeout other.timeout
    startPeriod := overrideIfSet hc.startPeriod other.startPeriod }

/-- applyIfNotSet changes the healthcheck's fields only if they were not
set and the other healthcheck has them set. -/
def ContainerHealthCheck.applyIfNotSet (hc other : ContainerHealthCheck) : ContainerHealthCheck :=
  { command := fillIfUnset hc.command other.command
    interval := fillIfUnset hc.interval other.interval
    retries := fillIfUnset hc.retries other.retries
    timeout := fillIfUnset hc.timeout other.timeout
    startPeriod := fillIfUnset hc.startPeriod other.startPeriod }

/-- newDefaultContainerHealthCheck returns container health check
configuration identical to a load balanced web service's defaults. -/
def newDefaultContainerHealthCheck : ContainerHealthCheck :=
  { command := some ["CMD-SHELL", "curl -f http://localhost/ || exit 1"]
    interval := some (10 * 1000000000)
    retries := some 2
    timeout := some (5 * 1000000000)
    startPeriod := some 0 }

/-- The template-facing health check shape (`ecs.HealthCheck`) with the
four numeric fields unconditionally populated. -/
structure EcsHealthCheck where
  command : Option (List String)
  interval : Int
  retries : Int
  startPeriod : Int
  timeout : Int
deriving DecidableEq

/-- Whole seconds of a nanosecond duration.  Go computes
`int64(d.Seconds())`, a truncation toward zero; the durations handled
here are non-negative, where `Int` division agrees with it. -/
def nanosToSeconds (d : Int) : Int := d / 1000000000

/-- HealthCheckOpts converts the image's healthcheck configuration into a
format parsable by the templates package.  The Go code dereferences the
`Interval`, `Retries`, `StartPeriod` and `Timeout` pointers without a nil
check; a nil among them is the run-time panic, modelled as the error
branch. -/
def imageWithPortAndHealthcheck.HealthCheckOpts
    (i : imageWithPortAndHealthcheck) : Except String (Option EcsHealthCheck) :=
  match i.healthCheck with
  | none => .ok none
  | some hc =>
    match hc.interval, hc.retries, hc.startPeriod, hc.timeout with
    | some iv, some r, some sp, some t =>
      .ok (some { command := hc.command
                  interval := nanosToSeconds iv
                  retries := r
                  startPeriod := nanosToSeconds sp
                  timeout := nanosToSeconds t })
    | _, _, _, _ => .error "runtime error: invalid memory address or nil pointer dereference"

/-- requiresBuild errors unless exactly one of the image's build form and
location is specified. -/
def requiresBuild (image : Image) : Except String Bool :=
  let noBuild := image.build.isEmpty
  let noURL := image.location.isNone
  if noBuild == noURL then
    .error "either image.build or image.location needs to be specified in the manifest"
  else if image.location.isNone then
    .ok true
  else
    .ok false

/-- BuildRequired returns if the backend service requires building from
the local Dockerfile. -/
def BackendService.BuildRequired (s : BackendService) : Except String Bool :=
  requiresBuild s.config.imageConfig.serviceImageWithPort.image

/-- BuildRequired returns if the worker service requires building from
the local Dockerfile. -/
def WorkerService.BuildRequired (s : WorkerService) : Except String Bool :=
  requiresBuild s.config.imageConfig.image

/-- Default port for a sidecar container. -/
def defaultSidecarPort : String := "80"

/-- Splits a character list at every occurrence of `sep`, keeping empty
segments — the behavior of Go's `strings.Split` with a one-character
separator. -/
def splitChar (sep : Char) : List Char → List (List Char)
  | [] => [[]]
  | c :: cs =>
    match splitChar sep cs with
    | [] => [[]]
    | h :: t => if c = sep then [] :: h :: t else (c :: h) :: t

/-- Go's `strings.Split(s, "/")`. -/
def goSplitOnSlash (s : String) : List String :=
  (splitChar '/' s.toList).map (fun l => String.mk l)

/-- parsePortMapping parses a sidecar port string such as `2000/udp` or
`2000` (protocol defaults to tcp downstream); a nil port string maps to
the default sidecar port. -/
def parsePortMapping (s : Option String) :
    Except String (Option String × Option String) :=
  match s with
  | none => .ok (some defaultSidecarPort, none)
  | some str =>
    match goSplitOnSlash str with
    | [p] => .ok (some p, none)
    | [p, protocol] => .ok (some p, some protocol)
    | _ => .error ("cannot parse port mapping from " ++ str)

/-- One step of lexical path cleaning: push a component onto the stack of
components seen so far (most recent first). -/
def cleanStep (rooted : Bool) (st : List String) (c : String) : List String :=
  if c = "." then st
  else if c = ".." then
    match st with
    | t :: rest => if t ≠ ".." then rest else ".." :: t :: rest
    | [] => if rooted then [] else [".."]
  else c :: st

/-- Go's `path/filepath.Clean` on slash-separated paths, via component
processing: drop empty and `.` components, resolve `..` against the
stack (never past the root; kept literally when relative).  This is
extensionally the lazy-buffer algorithm of the Go standard library. -/
def goClean (p : String) : String :=
  if p = "" then "."
  else
    let rooted := match p.toList with
      | '/' :: _ => true
      | _ => false
    let comps := (goSplitOnSlash p).filter (fun c => c ≠ "")
    let parts := (comps.foldl (cleanStep rooted) []).reverse
    if rooted then "/" ++ String.intercalate "/" parts
    else if parts = [] then "." else String.intercalate "/" parts

/-- Go's `path/filepath.Join`: drop empty elements, join with `/`, clean;
all-empty input yields `""`. -/
def goJoin (elems : List String) : String :=
  let ne := elems.filter (fun e => e ≠ "")
  if ne = [] then "" else goClean (String.intercalate "/" ne)

/-- Go's `path/filepath.Dir`: everything up to and including the final
separator, cleaned; `.` when the path holds no separator. -/
def goDir (p : String) : String :=
  match goSplitOnSlash p with
  | [] => "."
  | [_] => "."
  | parts => goClean (String.intercalate "/" parts.dropLast ++ "/")

/-- Default Dockerfile name. -/
def dockerfileDefaultName : String := "Dockerfile"

/-- dockerfile returns the path to the workload's Dockerfile: prefer the
`Dockerfile` string of the structured build args (even when it points at
`""`), otherwise the scalar build string, otherwise `""`. -/
def Image.dockerfile (i : Image) : String :=
  match i.build.buildArgs.dockerfile with
  | some d => d
  | none => stringValue i.build.buildString

/-- context returns the build context directory if it exists, otherwise
an empty string. -/
def Image.context (i : Image) : String :=
  stringValue i.build.buildArgs.context

/-- args returns the build-args section. -/
def Image.args (i : Image) : Option (List (String × String)) :=
  i.build.buildArgs.args

/-- target returns the build target stage if it exists. -/
def Image.target (i : Image) : Option String :=
  i.build.buildArgs.target

/-- cacheFrom returns the cache-from build section, if it exists. -/
def Image.cacheFrom (i : Image) : Option (List String) :=
  i.build.buildArgs.cacheFrom

/-- BuildConfig populates a docker build-arguments value from the fields
available in the manifest, preferring: specific dockerfile with specific
context; specific dockerfile with its directory as context; `Dockerfile`
inside the context directory; `Dockerfile` at the workspace root. -/
def Image.BuildConfig (i : Image) (rootDirectory : String) : DockerBuildArgs :=
  let df := i.dockerfile
  let ctx := i.context
  let dockerfile := goJoin [rootDirectory, dockerfileDefaultName]
  let context := rootDirectory
  let pair :=
    if df ≠ "" ∧ ctx ≠ "" then
      (goJoin [rootDirectory, df], goJoin [rootDirectory, ctx])
    else (dockerfile, context)
  let pair :=
    if df ≠ "" ∧ ctx = "" then
      (goJoin [rootDirectory, df], goJoin [rootDirectory, goDir df])
    else pair
  let pair :=
    if df = "" ∧ ctx ≠ "" then
      (goJoin [rootDirectory, ctx, dockerfileDefaultName], goJoin [rootDirectory, ctx])
    else pair
  { context := some pair.2
    dockerfile := some pair.1
    args := i.args
    target := i.target
    cacheFrom := i.cacheFrom }

/-!
The environment-override merge.  `ApplyEnv` delegates the deep merge to
the external mergo library (`mergo.Merge` with `WithOverride` and
`WithOverwriteWithEmptyValue`), which is not code of this repository.
Its effect on these structures is modelled from the spec: an overlay
field that is set — including one explicitly set to an empty value —
replaces the corresponding base field, maps are replaced whole, and an
overlay field left unset (nil) leaves the base field unchanged; value
structs merge field by field.  The worker service additionally installs
`workloadTransformer`, whose `transformImage` (in src/) handles fields
of type `Image`.
-/

/-- Generic merge of the structured build arguments. -/
def mergeDockerBuildArgs (dst src : DockerBuildArgs) : DockerBuildArgs :=
  { context := overrideIfSet dst.context src.context
    dockerfile := overrideIfSet dst.dockerfile src.dockerfile
    args := overrideIfSet dst.args src.args
    target := overrideIfSet dst.target src.target
    cacheFrom := overrideIfSet dst.cacheFrom src.cacheFrom }

/-- Generic merge of the build union. -/
def mergeBuildArgsOrString (dst src : BuildArgsOrString) : BuildArgsOrString :=
  { buildString := overrideIfSet dst.buildString src.buildString
    buildArgs := mergeDockerBuildArgs dst.buildArgs src.buildArgs }

/-- Generic merge of an `Image` — the merge the backend service's
`ApplyEnv` performs, which installs no transformer. -/
def mergeImage (dst src : Image) : Image :=
  { build := mergeBuildArgsOrString dst.build src.build
    location := overrideIfSet dst.location src.location
    dockerLabels := overrideIfSet dst.dockerLabels src.dockerLabels
    dependsOn := overrideIfSet dst.dependsOn src.dependsOn }

/-- transformImage is the customized merge the worker service registers
for fields of type `Image`.  The Go code first runs the default merge
into `dstImage := dst.Interface().(Image)` — a copy whose merged result
is never written back to `dst` — and then sets both `Build` and
`Location` on `dst` from `src` when at least one of them is non-zero.
The net effect on `dst` is exactly that conditional pair replacement. -/
def transformImage (dst src : Image) : Image :=
  if !src.build.isZero || src.location.isSome then
    { dst with build := src.build, location := src.location }
  else dst

/-- Generic merge of the autoscaling policy sub-fields. -/
def mergeAutoscaling (dst src : Autoscaling) : Autoscaling :=
  { range := overrideIfSet dst.range src.range
    cpuPercentage := overrideIfSet dst.cpuPercentage src.cpuPercentage
    memoryPercentage := overrideIfSet dst.memoryPercentage src.memoryPercentage }

/-- Generic merge of the count union. -/
def mergeCount (dst src : Count) : Count :=
  { value := overrideIfSet dst.value src.value
    autoscaling := mergeAutoscaling dst.autoscaling src.autoscaling }

/-- Generic merge of the exec union. -/
def mergeExecuteCommand (dst src : ExecuteCommand) : ExecuteCommand :=
  { enable := overrideIfSet dst.enable src.enable
    config := { enable := overrideIfSet dst.config.enable src.config.enable } }

/-- Generic merge of the task configuration. -/
def mergeTaskConfig (dst src : TaskConfig) : TaskConfig :=
  { cpu := overrideIfSet dst.cpu src.cpu
    memory := overrideIfSet dst.memory src.memory
    count := mergeCount dst.count src.count
    Variables := overrideIfSet dst.Variables src.Variables
    secrets := overrideIfSet dst.secrets src.secrets
    executeCommand := mergeExecuteCommand dst.executeCommand src.executeCommand }

/-- Generic merge of the backend service's network block (a value
struct holding a pointer to the VPC configuration). -/
def mergeNetworkConfig (dst src : NetworkConfig) : NetworkConfig :=
  { vpc := overrideIfSet dst.vpc src.vpc }

/-- Generic merge of the backend service's image config (no
transformer). -/
def mergeImageWithPortAndHealthcheck
    (dst src : imageWithPortAndHealthcheck) : imageWithPortAndHealthcheck :=
  { serviceImageWithPort :=
      { image := mergeImage dst.serviceImageWithPort.image src.serviceImageWithPort.image
        port := overrideIfSet dst.serviceImageWithPort.port src.serviceImageWithPort.port }
    healthCheck := overrideIfSet dst.healthCheck src.healthCheck }

/-- Merge of the worker service's image config, with `transformImage`
registered for the `Image`-typed field. -/
def mergeImageWithHealthcheck
    (dst src : ImageWithHealthcheck) : ImageWithHealthcheck :=
  { image := transformImage dst.image src.image
    healthCheck := overrideIfSet dst.healthCheck src.healthCheck }

/-- Merge of a backend service configuration overlay onto a base. -/
def mergeBackendServiceConfig
    (dst src : BackendServiceConfig) : BackendServiceConfig :=
  { imageConfig := mergeImageWithPortAndHealthcheck dst.imageConfig src.imageConfig
    taskConfig := mergeTaskConfig dst.taskConfig src.taskConfig
    logging := overrideIfSet dst.logging src.logging
    sidecars := overrideIfSet dst.sidecars src.sidecars
    network := mergeNetworkConfig dst.network src.network }

/-- Merge of a worker service configuration overlay onto a base (the
worker's network block is itself a pointer). -/
def mergeWorkerServiceConfig
    (dst src : WorkerServiceConfig) : WorkerServiceConfig :=
  { imageConfig := mergeImageWithHealthcheck dst.imageConfig src.imageConfig
    taskConfig := mergeTaskConfig dst.taskConfig src.taskConfig
    logging := overrideIfSet dst.logging src.logging
    sidecars := overrideIfSet dst.sidecars src.sidecars
    subscribe := overrideIfSet dst.subscribe src.subscribe
    network := overrideIfSet dst.network src.network }

/-- ApplyEnv returns the backend service manifest with environment
overrides.  If the requested environment has no overrides (no entry, or
a nil entry), it returns the receiver as is.  Otherwise a non-empty
override count is installed before the merge, the override is merged
onto the receiver (the merge source's `Workload` and `Environments`
members are zero, so they leave the base's), and the environments map is
cleared. -/
def BackendService.ApplyEnv (s : BackendService) (envName : String) :
    Except String BackendService :=
  match s.environments.lookup envName with
  | none => .ok s
  | some none => .ok s
  | some (some overrideConfig) =>
    let s1 :=
      if !overrideConfig.taskConfig.count.IsEmpty then
        { s with config :=
          { s.config with taskConfig :=
            { s.config.taskConfig with count := overrideConfig.taskConfig.count } } }
      else s
    .ok { workload := s1.workload
          config := mergeBackendServiceConfig s1.config overrideConfig
          environments := [] }

/-- ApplyEnv returns the worker service manifest with environment
overrides; the merge additionally registers `workloadTransformer`, so
`Image`-typed fields are merged by `transformImage`. -/
def WorkerService.ApplyEnv (s : WorkerService) (envName : String) :
    Except String WorkerService :=
  match s.environments.lookup envName with
  | none => .ok s
  | some none => .ok s
  | some (some overrideConfig) =>
    let s1 :=
      if !overrideConfig.taskConfig.count.IsEmpty then
        { s with config :=
          { s.config with taskConfig :=
            { s.config.taskConfig with count := overrideConfig.taskConfig.count } } }
      else s
    .ok { workload := s1.workload
          config := mergeWorkerServiceConfig s1.config overrideConfig
          environments := [] }

/-- Modelled from the spec: the workload type tags ("type (enum:
web-service, backend-service, scheduled-job, worker-service)"); the
constants' source file is not under src/. -/
def LoadBalancedWebServiceType : String := "web-service"

/-- Modelled from the spec: the backend service type tag. -/
def BackendServiceType : String := "backend-service"

/-- Modelled from the spec: the scheduled job type tag. -/
def ScheduledJobType : String := "scheduled-job"

/-- Modelled from the spec: the worker service type tag. -/
def WorkerServiceType : String := "worker-service"

/-- Modelled from the spec: the public subnet placement value ("network
defaulted to public placement"); the constant's source file is not under
src/. -/
def PublicSubnetPlacement : String := "public"

/-- The default task configuration shared by the defaulting
constructors: minimal task sizes, a single replica, exec disabled. -/
def defaultTaskConfig : TaskConfig :=
  { cpu := some 256
    memory := some 512
    count := { value := some 1, autoscaling := Autoscaling.zero }
    Variables := none
    secrets := none
    executeCommand := { enable := some false, config := { enable := none } } }

/-- newDefaultBackendService returns a backend service with minimal task
sizes and a single replica. -/
def newDefaultBackendService : BackendService :=
  { workload := { name := none, type := some BackendServiceType }
    config :=
      { imageConfig :=
          { serviceImageWithPort := { image := Image.zero, port := none }
            healthCheck := none }
        taskConfig := defaultTaskConfig
        logging := none
        sidecars := none
        network := { vpc := some { placement := some PublicSubnetPlacement } } }
    environments := [] }

/-- newDefaultWorkerService returns a worker service with minimal task
sizes, a single replica and an empty subscription configuration. -/
def newDefaultWorkerService : WorkerService :=
  { workload := { name := none, type := some WorkerServiceType }
    config :=
      { imageConfig := { image := Image.zero, healthCheck := none }
        taskConfig := defaultTaskConfig
        logging := none
        sidecars := none
        subscribe := some { topics := none }
        network := some { vpc := some { placement := some PublicSubnetPlacement } } }
    environments := [] }

/-- The zero `BackendServiceConfig` (what a fresh environment-override
entry decodes into). -/
def BackendServiceConfig.zero : BackendServiceConfig :=
  { imageConfig :=
      { serviceImageWithPort := { image := Image.zero, port := none }
        healthCheck := none }
    taskConfig :=
      { cpu := none, memory := none
        count := { value := none, autoscaling := Autoscaling.zero }
        Variables := none, secrets := none
        executeCommand := { enable := none, config := { enable := none } } }
    logging := none
    sidecars := none
    network := { vpc := none } }

/-- The zero `WorkerServiceConfig`. -/
def WorkerServiceConfig.zero : WorkerServiceConfig :=
  { imageConfig := { image := Image.zero, healthCheck := none }
    taskConfig :=
      { cpu := none, memory := none
        count := { value := none, autoscaling := Autoscaling.zero }
        Variables := none, secrets := none
        executeCommand := { enable := none, config := { enable := none } } }
    logging := none
    sidecars := none
    subscribe := none
    network := none }

/-!
The YAML decoding model.  A source document is a tree of mappings,
sequences and scalars.  The generic `unmarshal` callback of the yaml
library (external code) is modelled per target type: a shape/type
mismatch is the distinguished `typeErr` (the library's `*yaml.TypeError`)
and leaves the decode target untouched; `invalid` stands for a document
piece whose decode fails for any other reason (`otherErr`).  Unknown
mapping keys are ignored, as the library is not run in strict mode.
-/

/-- A YAML document node. -/
inductive YamlNode where
  | str (s : String)
  | bool (b : Bool)
  | int (n : Int)
  | seq (items : List YamlNode)
  | map (entries : List (String × YamlNode))
  | null
  | invalid

/-- Errors of the decode and resolution pipeline. -/
inductive ManifestErr where
  | typeErr
  | otherErr
  | unmarshalBuildOpts
  | unmarshalExec
  | unmarshalCountOpts
  | invalidWorkloadType (t : String)
  | invalidPlacement (p : String)
deriving DecidableEq

/-- Decode into a `*string`. -/
def decodeOptStr : YamlNode → Except ManifestErr (Option String)
  | .str s => .ok (some s)
  | .null => .ok none
  | .invalid => .error .otherErr
  | _ => .error .typeErr

/-- Decode into a `*bool`. -/
def decodeOptBool : YamlNode → Except ManifestErr (Option Bool)
  | .bool b => .ok (some b)
  | .null => .ok none
  | .invalid => .error .otherErr
  | _ => .error .typeErr

/-- Decode into a `*int`. -/
def decodeOptInt : YamlNode → Except ManifestErr (Option Int)
  | .int n => .ok (some n)
  | .null => .ok none
  | .invalid => .error .otherErr
  | _ => .error .typeErr

/-- Decode into a `*uint16`. -/
def decodeOptNat : YamlNode → Except ManifestErr (Option Nat)
  | .int n => if 0 ≤ n ∧ n < 65536 then .ok (some n.toNat) else .error .typeErr
  | .null => .ok none
  | .invalid => .error .otherErr
  | _ => .error .typeErr

/-- Decimal digits to a natural number. -/
def digitsToNat (digits : List Char) : Nat :=
  digits.foldl (fun n c => n * 10 + (c.toNat - '0'.toNat)) 0

/-- Whole-second duration literals such as `10s`.  The library parses
`time.Duration` fields from integers (nanoseconds) or duration strings;
the model covers the forms the manifests use. -/
def parseSecondsLit (s : String) : Option Int :=
  match s.toList.reverse with
  | 's' :: rest =>
    let digits := rest.reverse
    if digits ≠ [] && digits.all (fun c => c.isDigit) then
      some ((digitsToNat digits : Int) * 1000000000)
    else none
  | _ => none

/-- Decode into a `*time.Duration`. -/
def decodeOptDuration : YamlNode → Except ManifestErr (Option Int)
  | .int n => .ok (some n)
  | .str s =>
    match parseSecondsLit s with
    | some d => .ok (some d)
    | none => .error .typeErr
  | .null => .ok none
  | .invalid => .error .otherErr
  | _ => .error .typeErr

/-- Decode one string-valued mapping entry. -/
def decodeStrEntry : String × YamlNode → Except ManifestErr (String × String)
  | (k, .str s) => .ok (k, s)
  | (_, .invalid) => .error .otherErr
  | _ => .error .typeErr

/-- Decode into a `map[string]string`. -/
def decodeStrPairs : YamlNode → Except ManifestErr (Option (List (String × String)))
  | .map es => (es.mapM decodeStrEntry).map some
  | .null => .ok none
  | .invalid => .error .otherErr
  | _ => .error .typeErr

/-- Decode one string sequence item. -/
def decodeStrItem : YamlNode → Except ManifestErr String
  | .str s => .ok s
  | .invalid => .error .otherErr
  | _ => .error .typeErr

/-- Decode into a `[]string`. -/
def decodeOptStrList : YamlNode → Except ManifestErr (Option (List String))
  | .seq items => (items.mapM decodeStrItem).map some
  | .null => .ok none
  | .invalid => .error .otherErr
  | _ => .error .typeErr

/-- One mapping key of the structured build arguments. -/
def decodeBuildArgsField (b : DockerBuildArgs) (k : String) (v : YamlNode) :
    Except ManifestErr DockerBuildArgs :=
  if k = "context" then (decodeOptStr v).map fun x => { b with context := x }
  else if k = "dockerfile" then (decodeOptStr v).map fun x => { b with dockerfile := x }
  else if k = "args" then (decodeStrPairs v).map fun x => { b with args := x }
  else if k = "target" then (decodeOptStr v).map fun x => { b with target := x }
  else if k = "cache_from" then (decodeOptStrList v).map fun x => { b with cacheFrom := x }
  else .ok b

/-- Decode into a `DockerBuildArgs` struct. -/
def decodeDockerBuildArgs (init : DockerBuildArgs) :
    YamlNode → Except ManifestErr DockerBuildArgs
  | .map es => es.foldlM (fun b kv => decodeBuildArgsField b kv.1 kv.2) init
  | .null => .ok init
  | .invalid => .error .otherErr
  | _ => .error .typeErr

/-- UnmarshalYAML for `BuildArgsOrString`: attempt the structured form
first; accept a non-empty structured value and unset the build string;
on a type mismatch, or on an empty structured value, fall back to the
scalar form; if the scalar decode fails too, surface
`errUnmarshalBuildOpts`. -/
def BuildArgsOrString.UnmarshalYAML (b : BuildArgsOrString) (n : YamlNode) :
    Except ManifestErr BuildArgsOrString :=
  let structured : Except ManifestErr BuildArgsOrString :=
    match decodeDockerBuildArgs b.buildArgs n with
    | .ok args => .ok { b with buildArgs := args }
    | .error .typeErr => .ok b
    | .error e => .error e
  match structured with
  | .error e => .error e
  | .ok b1 =>
    if !b1.buildArgs.isEmpty then .ok { b1 with buildString := none }
    else
      match decodeOptStr n with
      | .ok s => .ok { b1 with buildString := s }
      | .error _ => .error .unmarshalBuildOpts

/-- Decode into an `ExecuteCommandConfig` struct. -/
def decodeExecuteCommandConfig (init : ExecuteCommandConfig) :
    YamlNode → Except ManifestErr ExecuteCommandConfig
  | .map es =>
    es.foldlM
      (fun c kv =>
        if kv.1 = "enable" then (decodeOptBool kv.2).map fun x => { enable := x }
        else .ok c)
      init
  | .null => .ok init
  | .invalid => .error .otherErr
  | _ => .error .typeErr

/-- UnmarshalYAML for `ExecuteCommand`: attempt the structured config
first; a non-empty structured value is accepted as is (the scalar
`Enable` member is left untouched); otherwise fall back to the scalar
bool; if that fails too, surface `errUnmarshalExec`. -/
def ExecuteCommand.UnmarshalYAML (e : ExecuteCommand) (n : YamlNode) :
    Except ManifestErr ExecuteCommand :=
  let structured : Except ManifestErr ExecuteCommand :=
    match decodeExecuteCommandConfig e.config n with
    | .ok cfg => .ok { e with config := cfg }
    | .error .typeErr => .ok e
    | .error err => .error err
  match structured with
  | .error err => .error err
  | .ok e1 =>
    if !e1.config.IsEmpty then .ok e1
    else
      match decodeOptBool n with
      | .ok v => .ok { e1 with enable := v }
      | .error _ => .error .unmarshalExec

/-- Decode into the autoscaling policy struct (modelled, see
`Autoscaling`). -/
def decodeAutoscaling (init : Autoscaling) :
    YamlNode → Except ManifestErr Autoscaling
  | .map es =>
    es.foldlM
      (fun a kv =>
        if kv.1 = "range" then (decodeOptStr kv.2).map fun x => { a with range := x }
        else if kv.1 = "cpu_percentage" then (decodeOptInt kv.2).map fun x => { a with cpuPercentage := x }
        else if kv.1 = "memory_percentage" then (decodeOptInt kv.2).map fun x => { a with memoryPercentage := x }
        else .ok a)
      init
  | .null => .ok init
  | .invalid => .error .otherErr
  | _ => .error .typeErr

/-- Modelled from the spec: UnmarshalYAML for the `count` union (its
source file is not under src/; src/ declares its error value
`errUnmarshalCountOpts`): the structured autoscaling form is attempted
first, a non-empty structured value wins and clears the scalar, otherwise
the integer scalar is attempted, and a double failure surfaces the count
union-decode error. -/
def Count.UnmarshalYAML (c : Count) (n : YamlNode) : Except ManifestErr Count :=
  let structured : Except ManifestErr Count :=
    match decodeAutoscaling c.autoscaling n with
    | .ok a => .ok { c with autoscaling := a }
    | .error .typeErr => .ok c
    | .error err => .error err
  match structured with
  | .error err => .error err
  | .ok c1 =>
    if !c1.autoscaling.IsEmpty then .ok { c1 with value := none }
    else
      match decodeOptInt n with
      | .ok v => .ok { c1 with value := v }
      | .error _ => .error .unmarshalCountOpts

/-- The zero `ContainerHealthCheck` (a freshly allocated struct). -/
def ContainerHealthCheck.zero : ContainerHealthCheck :=
  { command := none, interval := none, retries := none, timeout := none, startPeriod := none }

/-- One mapping key of a container health check. -/
def decodeHealthCheckField (hc : ContainerHealthCheck) (k : String) (v : YamlNode) :
    Except ManifestErr ContainerHealthCheck :=
  if k = "command" then (decodeOptStrList v).map fun x => { hc with command := x }
  else if k = "interval" then (decodeOptDuration v).map fun x => { hc with interval := x }
  else if k = "retries" then (decodeOptInt v).map fun x => { hc with retries := x }
  else if k = "timeout" then (decodeOptDuration v).map fun x => { hc with timeout := x }
  else if k = "start_period" then (decodeOptDuration v).map fun x => { hc with startPeriod := x }
  else .ok hc

/-- Decode into a `ContainerHealthCheck` struct. -/
def decodeContainerHealthCheck (init : ContainerHealthCheck) :
    YamlNode → Except ManifestErr ContainerHealthCheck
  | .map es => es.foldlM (fun hc kv => decodeHealthCheckField hc kv.1 kv.2) init
  | .null => .ok init
  | .invalid => .error .otherErr
  | _ => .error .typeErr

/-- Decode into a `*ContainerHealthCheck` (an explicit null leaves the
pointer nil; a mapping allocates and fills the struct). -/
def decodeOptHealthCheck (init : Option ContainerHealthCheck) :
    YamlNode → Except ManifestErr (Option ContainerHealthCheck)
  | .null => .ok none
  | n => (decodeContainerHealthCheck (init.getD ContainerHealthCheck.zero) n).map some

/-- One mapping key of an `Image`. -/
def decodeImageField (img : Image) (k : String) (v : YamlNode) :
    Except ManifestErr Image :=
  if k = "build" then (img.build.UnmarshalYAML v).map fun x => { img with build := x }
  else if k = "location" then (decodeOptStr v).map fun x => { img with location := x }
  else if k = "labels" then (decodeStrPairs v).map fun x => { img with dockerLabels := x }
  else if k = "depends_on" then (decodeStrPairs v).map fun x => { img with dependsOn := x }
  else .ok img

/-- One mapping key of the backend service's image config (the embedded
`Image` keys inline, plus `port` and `healthcheck`). -/
def decodeImageConfigField (cfg : imageWithPortAndHealthcheck) (k : String) (v : YamlNode) :
    Except ManifestErr imageWithPortAndHealthcheck :=
  if k = "port" then
    (decodeOptNat v).map fun x =>
      { cfg with serviceImageWithPort := { cfg.serviceImageWithPort with port := x } }
  else if k = "healthcheck" then
    (decodeOptHealthCheck cfg.healthCheck v).map fun x => { cfg with healthCheck := x }
  else
    (decodeImageField cfg.serviceImageWithPort.image k v).map fun x =>
      { cfg with serviceImageWithPort := { cfg.serviceImageWithPort with image := x } }

/-- Decode into the backend service's image config. -/
def decodeImageWithPortAndHealthcheck (init : imageWithPortAndHealthcheck) :
    YamlNode → Except ManifestErr imageWithPortAndHealthcheck
  | .map es => es.foldlM (fun cfg kv => decodeImageConfigField cfg kv.1 kv.2) init
  | .null => .ok init
  | .invalid => .error .otherErr
  | _ => .error .typeErr

/-- The zero `Logging` value. -/
def Logging.zero : Logging :=
  { image := none, destination := none, enableMetadata := none
    secretOptions := none, configFile := none }

/-- One mapping key of the logging block. -/
def decodeLoggingField (lc : Logging) (k : String) (v : YamlNode) :
    Except ManifestErr Logging :=
  if k = "image" then (decodeOptStr v).map fun x => { lc with image := x }
  else if k = "destination" then (decodeStrPairs v).map fun x => { lc with destination := x }
  else if k = "enableMetadata" then (decodeOptBool v).map fun x => { lc with enableMetadata := x }
  else if k = "secretOptions" then (decodeStrPairs v).map fun x => { lc with secretOptions := x }
  else if k = "configFilePath" then (decodeOptStr v).map fun x => { lc with configFile := x }
  else .ok lc

/-- Decode into a `*Logging`. -/
def decodeOptLogging (init : Option Logging) :
    YamlNode → Except ManifestErr (Option Logging)
  | .null => .ok none
  | .map es => (es.foldlM (fun lc kv => decodeLoggingField lc kv.1 kv.2) (init.getD Logging.zero)).map some
  | .invalid => .error .otherErr
  | _ => .error .typeErr

/-- Decode one sidecar configuration. -/
def decodeSidecarConfig : YamlNode → Except ManifestErr SidecarConfig
  | .map es =>
    es.foldlM
      (fun sc kv =>
        if kv.1 = "port" then (decodeOptStr kv.2).map fun x => { sc with port := x }
        else if kv.1 = "image" then (decodeOptStr kv.2).map fun x => { sc with image := x }
        else if kv.1 = "credentialsParameter" then (decodeOptStr kv.2).map fun x => { sc with credsParam := x }
        else .ok sc)
      { port := none, image := none, credsParam := none }
  | .null => .ok { port := none, image := none, credsParam := none }
  | .invalid => .error .otherErr
  | _ => .error .typeErr

/-- Decode into the sidecars map. -/
def decodeSidecars : YamlNode → Except ManifestErr (Option (List (String × SidecarConfig)))
  | .map es => (es.mapM (fun kv => (decodeSidecarConfig kv.2).map fun c => (kv.1, c))).map some
  | .null => .ok none
  | .invalid => .error .otherErr
  | _ => .error .typeErr

/-- UnmarshalYAML for `NetworkConfig`, modelled from its source doc
comment (the function body under src/ is truncated): the VPC placement
defaults to public subnets, and a placement outside the valid set is an
error. -/
def decodeVpcField (v : vpcConfig) (k : String) (w : YamlNode) :
    Except ManifestErr vpcConfig :=
  if k = "placement" then (decodeOptStr w).map fun x => { v with placement := x }
  else .ok v

/-- Decode into a `*vpcConfig`. -/
def decodeOptVpcConfig (init : Option vpcConfig) :
    YamlNode → Except ManifestErr (Option vpcConfig)
  | .null => .ok none
  | .map ves =>
    (ves.foldlM (fun v kv => decodeVpcField v kv.1 kv.2)
        (init.getD { placement := some PublicSubnetPlacement })).map some
  | .invalid => .error .otherErr
  | _ => .error .typeErr

/-- One mapping key of the network block. -/
def decodeNetworkField (c : NetworkConfig) (k : String) (w : YamlNode) :
    Except ManifestErr NetworkConfig :=
  if k = "vpc" then (decodeOptVpcConfig c.vpc w).map fun x => { vpc := x }
  else .ok c

/-- Validation of the decoded placement (public subnets by default; an
unknown placement is an error). -/
def validatePlacement (c : NetworkConfig) : Except ManifestErr NetworkConfig :=
  match c.vpc with
  | some v =>
    match v.placement with
    | some p =>
      if p = PublicSubnetPlacement ∨ p = "private" then .ok c
      else .error (.invalidPlacement p)
    | none => .ok c
  | none => .ok c

def decodeNetworkConfig : YamlNode → Except ManifestErr NetworkConfig
  | .null => .ok { vpc := some { placement := some PublicSubnetPlacement } }
  | .map es =>
    let conf : NetworkConfig := { vpc := some { placement := some PublicSubnetPlacement } }
    match es.foldlM (fun c kv => decodeNetworkField c kv.1 kv.2) conf with
    | .error e => .error e
    | .ok c => validatePlacement c
  | .invalid => .error .otherErr
  | _ => .error .typeErr

/-- One top-level mapping key of a backend service configuration (the
task config and image-override groups are inline). -/
def decodeBackendServiceConfigField (c : BackendServiceConfig) (k : String) (v : YamlNode) :
    Except ManifestErr BackendServiceConfig :=
  if k = "image" then (decodeImageWithPortAndHealthcheck c.imageConfig v).map fun x => { c with imageConfig := x }
  else if k = "cpu" then (decodeOptInt v).map fun x => { c with taskConfig := { c.taskConfig with cpu := x } }
  else if k = "memory" then (decodeOptInt v).map fun x => { c with taskConfig := { c.taskConfig with memory := x } }
  else if k = "count" then (c.taskConfig.count.UnmarshalYAML v).map fun x => { c with taskConfig := { c.taskConfig with count := x } }
  else if k = "variables" then (decodeStrPairs v).map fun x => { c with taskConfig := { c.taskConfig with Variables := x } }
  else if k = "secrets" then (decodeStrPairs v).map fun x => { c with taskConfig := { c.taskConfig with secrets := x } }
  else if k = "exec" then (c.taskConfig.executeCommand.UnmarshalYAML v).map fun x => { c with taskConfig := { c.taskConfig with executeCommand := x } }
  else if k = "logging" then (decodeOptLogging c.logging v).map fun x => { c with logging := x }
  else if k = "sidecars" then (decodeSidecars v).map fun x => { c with sidecars := x }
  else if k = "network" then (decodeNetworkConfig v).map fun x => { c with network := x }
  else .ok c

/-- Decode into a `BackendServiceConfig` (used both for the top-level
config group and for environment-override entries). -/
def decodeBackendServiceConfig (init : BackendServiceConfig) :
    YamlNode → Except ManifestErr BackendServiceConfig
  | .map es => es.foldlM (fun c kv => decodeBackendServiceConfigField c kv.1 kv.2) init
  | .null => .ok init
  | .invalid => .error .otherErr
  | _ => .error .typeErr

/-- Decode the base workload shape (`name` and `type`). -/
def decodeWorkload (init : Workload) : YamlNode → Except ManifestErr Workload
  | .map es =>
    es.foldlM
      (fun (w : Workload) kv =>
        if kv.1 = "name" then (decodeOptStr kv.2).map fun x => { w with name := x }
        else if kv.1 = "type" then (decodeOptStr kv.2).map fun x => { w with type := x }
        else .ok w)
      init
  | .null => .ok init
  | .invalid => .error .otherErr
  | _ => .error .typeErr

/-- Decode the environments map (entries decode into fresh zero
configurations; explicit null entries stay nil). -/
def decodeEnvironments :
    YamlNode → Except ManifestErr (List (String × Option BackendServiceConfig))
  | .map es =>
    es.mapM
      (fun kv =>
        match kv.2 with
        | .null => .ok (kv.1, none)
        | n => (decodeBackendServiceConfig BackendServiceConfig.zero n).map fun c => (kv.1, some c))
  | .null => .ok []
  | .invalid => .error .otherErr
  | _ => .error .typeErr

/-- Decode a whole backend service manifest document over an initial
(defaulted) value. -/
def decodeBackendService (init : BackendService) :
    YamlNode → Except ManifestErr BackendService
  | .map es =>
    es.foldlM
      (fun (m : BackendService) kv =>
        if kv.1 = "name" then (decodeOptStr kv.2).map fun x => { m with workload := { m.workload with name := x } }
        else if kv.1 = "type" then (decodeOptStr kv.2).map fun x => { m with workload := { m.workload with type := x } }
        else if kv.1 = "environments" then (decodeEnvironments kv.2).map fun x => { m with environments := x }
        else (decodeBackendServiceConfigField m.config kv.1 kv.2).map fun x => { m with config := x })
      init
  | .null => .ok init
  | .invalid => .error .otherErr
  | _ => .error .typeErr

/-- Modelled from the spec: a load balanced web service manifest.  Its
type-specific config group is not under src/; per the spec all workload
kinds share the config-group keys, so it is modelled with the shared
config-group shape. -/
structure LoadBalancedWebService where
  workload : Workload
  config : BackendServiceConfig
  environments : List (String × Option BackendServiceConfig)
deriving DecidableEq

/-- Modelled from the spec: a scheduled job manifest, with the shared
config-group shape. -/
structure ScheduledJob where
  workload : Workload
  config : BackendServiceConfig
  environments : List (String × Option BackendServiceConfig)
deriving DecidableEq

/-- Modelled from the spec: the defaulted load balanced web service. -/
def newDefaultLoadBalancedWebService : LoadBalancedWebService :=
  { workload := { name := none, type := some LoadBalancedWebServiceType }
    config := newDefaultBackendService.config
    environments := [] }

/-- Modelled from the spec: the defaulted scheduled job. -/
def newDefaultScheduledJob : ScheduledJob :=
  { workload := { name := none, type := some ScheduledJobType }
    config := newDefaultBackendService.config
    environments := [] }

/-- Decode a load balanced web service document (shared config-group
decoder). -/
def decodeLoadBalancedWebService (init : LoadBalancedWebService) (n : YamlNode) :
    Except ManifestErr LoadBalancedWebService :=
  (decodeBackendService
      { workload := init.workload, config := init.config, environments := init.environments } n).map
    fun m => { workload := m.workload, config := m.config, environments := m.environments }

/-- Decode a scheduled job document (shared config-group decoder). -/
def decodeScheduledJob (init : ScheduledJob) (n : YamlNode) :
    Except ManifestErr ScheduledJob :=
  (decodeBackendService
      { workload := init.workload, config := init.config, environments := init.environments } n).map
    fun m => { workload := m.workload, config := m.config, environments := m.environments }

/-- The typed result of `UnmarshalWorkload`. -/
inductive WorkloadManifest where
  | lbws (m : LoadBalancedWebService)
  | backend (m : BackendService)
  | scheduled (m : ScheduledJob)
deriving DecidableEq

/-- After decoding a backend service, unset fields of a present health
check get a default value backfilled (`applyIfNotSet` with the default
container health check). -/
def applyBackendHealthCheckDefaults (m : BackendService) : BackendService :=
  match m.config.imageConfig.healthCheck with
  | none => m
  | some hc =>
    { m with config :=
      { m.config with imageConfig :=
        { m.config.imageConfig with
          healthCheck := some (hc.applyIfNotSet newDefaultContainerHealthCheck) } } }

/-- UnmarshalWorkload deserializes the document into a workload manifest
object: the base shape is parsed first, then the declared type selects
the typed decode over that type's defaults; a backend service with a
health check gets unset health-check fields backfilled from the default;
an unrecognized type is `ErrInvalidWorkloadType`. -/
def UnmarshalWorkload (input : YamlNode) : Except ManifestErr WorkloadManifest :=
  match decodeWorkload { name := none, type := none } input with
  | .error e => .error e
  | .ok am =>
    let typeVal := stringValue am.type
    if typeVal = LoadBalancedWebServiceType then
      (decodeLoadBalancedWebService newDefaultLoadBalancedWebService input).map .lbws
    else if typeVal = BackendServiceType then
      match decodeBackendService newDefaultBackendService input with
      | .error e => .error e
      | .ok m => .ok (.backend (applyBackendHealthCheckDefaults m))
    else if typeVal = ScheduledJobType then
      (decodeScheduledJob newDefaultScheduledJob input).map .scheduled
    else .error (.invalidWorkloadType typeVal)

deriving instance DecidableEq for Except

/-! Helper lemmas. -/

theorem overrideIfSet_self (a : Option α) : overrideIfSet a a = a := by
  cases a <;> rfl

theorem overrideIfSet_none (a : Option α) : overrideIfSet a none = a := rfl

theorem fillIfUnset_eq (d s : Option α) :
    fillIfUnset d s = if d.isSome then d else s := by
  cases d <;> rfl

theorem splitChar_ne_nil (sep : Char) (l : List Char) : splitChar sep l ≠ [] := by
  cases l with
  | nil => simp [splitChar]
  | cons c cs =>
    cases h : splitChar sep cs with
    | nil => simp [splitChar, h]
    | cons hd tl =>
      simp only [splitChar, h]
      split <;> simp

theorem splitChar_length (sep : Char) (l : List Char) :
    (splitChar sep l).length = l.count sep + 1 := by
  induction l with
  | nil => simp [splitChar]
  | cons c cs ih =>
    cases h : splitChar sep cs with
    | nil => exact absurd h (splitChar_ne_nil sep cs)
    | cons hd tl =>
      rw [h] at ih
      simp only [List.length_cons] at ih
      by_cases hc : c = sep
      · subst hc
        simp [splitChar, h, List.count_cons]
        omega
      · simp [splitChar, h, hc, List.count_cons, Ne.symm hc]
        omega

theorem splitChar_of_count_zero (sep : Char) (l : List Char) (h : l.count sep = 0) :
    splitChar sep l = [l] := by
  induction l with
  | nil => rfl
  | cons c cs ih =>
    have hc : c ≠ sep := by
      intro e
      subst e
      simp [List.count_cons] at h
    have hcs : cs.count sep = 0 := by
      simp [List.count_cons] at h
      omega
    simp [splitChar, ih hcs, hc]

theorem splitChar_single_sep (sep : Char) (p q : List Char)
    (hp : p.count sep = 0) (hq : q.count sep = 0) :
    splitChar sep (p ++ sep :: q) = [p, q] := by
  induction p with
  | nil => simp [splitChar, splitChar_of_count_zero sep q hq]
  | cons c cs ih =>
    have hc : c ≠ sep := by
      intro e
      subst e
      simp [List.count_cons] at hp
    have hcs : cs.count sep = 0 := by
      simp [List.count_cons] at hp
      omega
    simp [splitChar, ih hcs, hc]

theorem stringMk_toList (s : String) : String.mk s.toList = s := by
  cases s
  rfl

theorem toList_append (a b : String) : (a ++ b).toList = a.toList ++ b.toList := by
  cases a
  cases b
  rfl

/-- C6: the build-required check errors exactly when the image's build
form and location are both given or both absent; a build form alone
resolves to `true` (build required), a location alone to `false`. -/
theorem C6_exactly_one_of_image_source :
    ∀ image : Image,
      ((requiresBuild image).isOk = false ↔ image.build.isEmpty = image.location.isNone) ∧
      (image.build.isEmpty = false → image.location = none → requiresBuild image = .ok true) ∧
      (image.build.isEmpty = true → image.location ≠ none → requiresBuild image = .ok false) := by
  intro image
  cases h1 : image.build.isEmpty <;> cases h2 : image.location <;>
    simp [requiresBuild, h1, h2, Except.isOk, Except.toBool]

def c6Image : Image :=
  { Image.zero with
    build := { buildString := some "./Dockerfile", buildArgs := DockerBuildArgs.zero } }

/-- C6 witness: a concrete image whose build form alone is set requires
building. -/
theorem C6_witness :
    c6Image.build.isEmpty = false ∧ requiresBuild c6Image = .ok true :=
  ⟨by decide, (C6_exactly_one_of_image_source c6Image).2.1 (by decide) (by decide)⟩

/-- C7: applyIfNotSet keeps every field of the target that was already
set and fills only unset fields from the other health check; in
particular a target with retries 2 and no timeout backfilled from a
default with retries 5 and timeout 10s keeps retries 2 and gains the
10s timeout. -/
theorem C7_applyIfNotSet_never_overwrites :
    (∀ t o : ContainerHealthCheck,
      (t.applyIfNotSet o).command = (if t.command.isSome then t.command else o.command) ∧
      (t.applyIfNotSet o).interval = (if t.interval.isSome then t.interval else o.interval) ∧
      (t.applyIfNotSet o).retries = (if t.retries.isSome then t.retries else o.retries) ∧
      (t.applyIfNotSet o).timeout = (if t.timeout.isSome then t.timeout else o.timeout) ∧
      (t.applyIfNotSet o).startPeriod =
        (if t.startPeriod.isSome then t.startPeriod else o.startPeriod)) ∧
    (ContainerHealthCheck.applyIfNotSet
        { command := none, interval := none, retries := some 2, timeout := none, startPeriod := none }
        { command := none, interval := none, retries := some 5,
          timeout := some (10 * 1000000000), startPeriod := none }).retries = some 2 ∧
    (ContainerHealthCheck.applyIfNotSet
        { command := none, interval := none, retries := some 2, timeout := none, startPeriod := none }
        { command := none, interval := none, retries := some 5,
          timeout := some (10 * 1000000000), startPeriod := none }).timeout =
      some (10 * 1000000000) := by
  refine ⟨fun t o => ⟨?_, ?_, ?_, ?_, ?_⟩, by decide, by decide⟩ <;>
    simp [ContainerHealthCheck.applyIfNotSet, fillIfUnset_eq]

/-- C9: a non-nil sidecar port string is split on the slash: no slash
gives a port and no protocol, exactly one slash gives the port and the
protocol on its two sides, and two or more slashes are a format error. -/
theorem C9_port_mapping_grammar :
    (∀ s : String, s.toList.count '/' = 0 →
        parsePortMapping (some s) = .ok (some s, none)) ∧
    (∀ p q : String, p.toList.count '/' = 0 → q.toList.count '/' = 0 →
        parsePortMapping (some (p ++ "/" ++ q)) = .ok (some p, some q)) ∧
    (∀ s : String, 2 ≤ s.toList.count '/' →
        parsePortMapping (some s) = .error ("cannot parse port mapping from " ++ s)) := by
  refine ⟨?_, ?_, ?_⟩
  · intro s h
    have h' : s.data.count '/' = 0 := h
    have hmk : String.mk s.data = s := stringMk_toList s
    simp [parsePortMapping, goSplitOnSlash, splitChar_of_count_zero '/' s.data h', hmk]
  · intro p q hp hq
    have hp' : p.data.count '/' = 0 := hp
    have hq' : q.data.count '/' = 0 := hq
    have hmkp : String.mk p.data = p := stringMk_toList p
    have hmkq : String.mk q.data = q := stringMk_toList q
    have hsplit : (p ++ "/" ++ q).toList = p.data ++ '/' :: q.data := by
      rw [toList_append, toList_append]
      simp [String.toList]
    simp [parsePortMapping, goSplitOnSlash, hsplit,
      splitChar_single_sep '/' p.data q.data hp' hq', hmkp, hmkq]
  · intro s h
    have h' : 2 ≤ s.data.count '/' := h
    have hlen : 3 ≤ (goSplitOnSlash s).length := by
      simp [goSplitOnSlash, splitChar_length]
      omega
    cases hg : goSplitOnSlash s with
    | nil => rw [hg] at hlen; simp at hlen
    | cons a l1 =>
      cases l1 with
      | nil => rw [hg] at hlen; simp at hlen
      | cons b l2 =>
        cases l2 with
        | nil => rw [hg] at hlen; simp at hlen
        | cons c l3 => simp [parsePortMapping, hg]

/-- C9 witness: the spec's three examples, through the grammar theorem. -/
theorem C9_witness :
    parsePortMapping (some "2000") = .ok (some "2000", none) ∧
    parsePortMapping (some ("2000" ++ "/" ++ "udp")) = .ok (some "2000", some "udp") ∧
    parsePortMapping (some "2000/udp/extra") =
      .error ("cannot parse port mapping from " ++ "2000/udp/extra") :=
  ⟨C9_port_mapping_grammar.1 "2000" (by decide),
   C9_port_mapping_grammar.2.1 "2000" "udp" (by decide) (by decide),
   C9_port_mapping_grammar.2.2 "2000/udp/extra" (by decide)⟩

/-- C5: the build-context precedence table — dockerfile and context both
set, dockerfile only (context defaults to its directory), context only
(Dockerfile inside it), neither (workspace root) — with the build args,
target and cache-from list passed through unchanged. -/
theorem C5_build_context_precedence :
    ∀ (i : Image) (root : String),
      (i.dockerfile ≠ "" → i.context ≠ "" →
        i.BuildConfig root =
          { dockerfile := some (goJoin [root, i.dockerfile])
            context := some (goJoin [root, i.context])
            args := i.args, target := i.target, cacheFrom := i.cacheFrom }) ∧
      (i.dockerfile ≠ "" → i.context = "" →
        i.BuildConfig root =
          { dockerfile := some (goJoin [root, i.dockerfile])
            context := some (goJoin [root, goDir i.dockerfile])
            args := i.args, target := i.target, cacheFrom := i.cacheFrom }) ∧
      (i.dockerfile = "" → i.context ≠ "" →
        i.BuildConfig root =
          { dockerfile := some (goJoin [root, i.context, dockerfileDefaultName])
            context := some (goJoin [root, i.context])
            args := i.args, target := i.target, cacheFrom := i.cacheFrom }) ∧
      (i.dockerfile = "" → i.context = "" →
        i.BuildConfig root =
          { dockerfile := some (goJoin [root, dockerfileDefaultName])
            context := some root
            args := i.args, target := i.target, cacheFrom := i.cacheFrom }) := by
  intro i root
  refine ⟨fun h1 h2 => ?_, fun h1 h2 => ?_, fun h1 h2 => ?_, fun h1 h2 => ?_⟩ <;>
    simp [Image.BuildConfig, h1, h2]

def c5Image : Image :=
  { Image.zero with
    build := { buildString := some "svc/Dockerfile", buildArgs := DockerBuildArgs.zero } }

/-- C5 witness: the spec's first example row evaluated concretely. -/
theorem C5_witness :
    c5Image.dockerfile = "svc/Dockerfile" ∧ c5Image.context = "" ∧
    c5Image.BuildConfig "/ws" =
      { dockerfile := some "/ws/svc/Dockerfile", context := some "/ws/svc"
        args := none, target := none, cacheFrom := none } := by
  refine ⟨by decide, by decide, ?_⟩
  have h := (C5_build_context_precedence c5Image "/ws").2.1 (by decide) (by decide)
  rw [h]
  decide

/-- C1 (amended): when the requested environment has no registered
overlay, or the registered overlay is the nil sentinel, ApplyEnv
succeeds and returns exactly the receiver — the environments map is
retained as it was, not cleared, and the original is unchanged. -/
theorem C1_identity_law :
    (∀ (s : BackendService) (envName : String),
      s.environments.lookup envName = none ∨ s.environments.lookup envName = some none →
      s.ApplyEnv envName = .ok s) ∧
    (∀ (w : WorkerService) (envName : String),
      w.environments.lookup envName = none ∨ w.environments.lookup envName = some none →
      w.ApplyEnv envName = .ok w) := by
  constructor <;> intro s envName h <;> rcases h with h | h <;>
    simp [BackendService.ApplyEnv, WorkerService.ApplyEnv, h]

def c1Base : BackendService :=
  { newDefaultBackendService with environments := [("test", some BackendServiceConfig.zero)] }

/-- C1 counterexample: a base with an overlay registered for another
environment resolves for an absent environment to the base itself with
the environments map still populated — not cleared as the claim
states. -/
theorem C1_counterexample :
    c1Base.environments.lookup "prod" = none ∧
    c1Base.ApplyEnv "prod" = .ok c1Base ∧
    c1Base.environments ≠ [] := ⟨by decide, by decide, by decide⟩

/-- C1 witness: the identity path on the default services. -/
theorem C1_witness :
    newDefaultBackendService.ApplyEnv "prod" = .ok newDefaultBackendService ∧
    newDefaultWorkerService.ApplyEnv "prod" = .ok newDefaultWorkerService :=
  ⟨C1_identity_law.1 newDefaultBackendService "prod" (Or.inl (by decide)),
   C1_identity_law.2 newDefaultWorkerService "prod" (Or.inl (by decide))⟩

theorem mergeAutoscaling_self (a : Autoscaling) : mergeAutoscaling a a = a := by
  simp [mergeAutoscaling, overrideIfSet_self]

theorem mergeCount_self (c : Count) : mergeCount c c = c := by
  simp [mergeCount, overrideIfSet_self, mergeAutoscaling_self]

theorem mergeCount_of_empty (b c : Count) (h : c.IsEmpty = true) :
    mergeCount b c = b := by
  rcases c with ⟨v, r, cp, mp⟩
  cases v <;> cases r <;> cases cp <;> cases mp <;>
    simp_all [Count.IsEmpty, Autoscaling.IsEmpty]
  rfl

/-- C2: in both services' ApplyEnv, an overlay whose count is the empty
sentinel leaves a non-empty base count unchanged, and a non-empty
overlay count replaces the base count entirely. -/
theorem C2_count_not_clearable :
    (∀ (s : BackendService) (envName : String) (cfg : BackendServiceConfig) (m : BackendService),
      s.config.taskConfig.count.IsEmpty = false →
      s.environments.lookup envName = some (some cfg) →
      s.ApplyEnv envName = .ok m →
      (cfg.taskConfig.count.IsEmpty = true →
        m.config.taskConfig.count = s.config.taskConfig.count) ∧
      (cfg.taskConfig.count.IsEmpty = false →
        m.config.taskConfig.count = cfg.taskConfig.count)) ∧
    (∀ (s : WorkerService) (envName : String) (cfg : WorkerServiceConfig) (m : WorkerService),
      s.config.taskConfig.count.IsEmpty = false →
      s.environments.lookup envName = some (some cfg) →
      s.ApplyEnv envName = .ok m →
      (cfg.taskConfig.count.IsEmpty = true →
        m.config.taskConfig.count = s.config.taskConfig.count) ∧
      (cfg.taskConfig.count.IsEmpty = false →
        m.config.taskConfig.count = cfg.taskConfig.count)) := by
  constructor
  · intro s envName cfg m _ hl happ
    constructor
    · intro he
      simp [BackendService.ApplyEnv, hl, he] at happ
      subst happ
      simp [mergeBackendServiceConfig, mergeTaskConfig, mergeCount_of_empty _ _ he]
    · intro he
      simp [BackendService.ApplyEnv, hl, he] at happ
      subst happ
      simp [mergeBackendServiceConfig, mergeTaskConfig, mergeCount_self]
  · intro s envName cfg m _ hl happ
    constructor
    · intro he
      simp [WorkerService.ApplyEnv, hl, he] at happ
      subst happ
      simp [mergeWorkerServiceConfig, mergeTaskConfig, mergeCount_of_empty _ _ he]
    · intro he
      simp [WorkerService.ApplyEnv, hl, he] at happ
      subst happ
      simp [mergeWorkerServiceConfig, mergeTaskConfig, mergeCount_self]

def c2Base : BackendService :=
  { newDefaultBackendService with
    config := { newDefaultBackendService.config with
      taskConfig := { newDefaultBackendService.config.taskConfig with
        count := { value := some 3, autoscaling := Autoscaling.zero } } }
    environments := [("prod", some BackendServiceConfig.zero)] }

def c2Resolved : BackendService :=
  match c2Base.ApplyEnv "prod" with
  | .ok m => m
  | .error _ => c2Base

def c2WorkerOverlay : WorkerServiceConfig :=
  { WorkerServiceConfig.zero with
    taskConfig := { WorkerServiceConfig.zero.taskConfig with
      count := { value := none
                 autoscaling := { range := some "1-10", cpuPercentage := some 70
                                  memoryPercentage := none } } } }

def c2Worker : WorkerService :=
  { newDefaultWorkerService with environments := [("prod", some c2WorkerOverlay)] }

def c2WorkerResolved : WorkerService :=
  match c2Worker.ApplyEnv "prod" with
  | .ok m => m
  | .error _ => c2Worker

/-- C2 witness: a fixed replica count of 3 survives an empty overlay
count, and an autoscaling overlay count fully replaces the default
fixed count. -/
theorem C2_witness :
    c2Base.config.taskConfig.count = { value := some 3, autoscaling := Autoscaling.zero } ∧
    c2Resolved.config.taskConfig.count = c2Base.config.taskConfig.count ∧
    c2WorkerResolved.config.taskConfig.count = c2WorkerOverlay.taskConfig.count :=
  ⟨by decide,
   (C2_count_not_clearable.1 c2Base "prod" BackendServiceConfig.zero c2Resolved
      (by decide) (by decide) (by decide)).1 (by decide),
   (C2_count_not_clearable.2 c2Worker "prod" c2WorkerOverlay c2WorkerResolved
      (by decide) (by decide) (by decide)).2 (by decide)⟩

theorem transformImage_pair (dst src : Image)
    (h : src.build.isZero = false ∨ src.location.isSome = true) :
    (transformImage dst src).build = src.build ∧
    (transformImage dst src).location = src.location := by
  have hc : (!src.build.isZero || src.location.isSome) = true := by
    rcases h with h | h <;> simp [h]
  simp [transformImage, hc]

theorem transformImage_id (dst src : Image)
    (h1 : src.build.isZero = true) (h2 : src.location = none) :
    transformImage dst src = dst := by
  simp [transformImage, h1, h2]

theorem mergeBuildArgsOrString_of_zero (dst src : BuildArgsOrString)
    (h : src.isZero = true) : mergeBuildArgsOrString dst src = dst := by
  rcases src with ⟨bs, c, d, a, t, cf⟩
  cases bs <;> cases c <;> cases d <;> cases a <;> cases t <;> cases cf <;>
    simp_all [BuildArgsOrString.isZero, DockerBuildArgs.isEmpty]
  rfl

/-- C3 (amended): the atomic Build/Location pair replacement holds for
the worker service's ApplyEnv, whose merge registers the image
transformer: an overlay image that sets at least one of the pair causes
both resolved fields to come from the overlay, and an overlay image that
sets neither leaves both base fields; the backend service's ApplyEnv
installs no transformer — an overlay image that sets neither Build nor
Location still leaves both base fields there, but its generic image
merge keeps a stale base location alongside a fresh overlay build (see
the counterexample). -/
theorem C3_atomic_build_location :
    (∀ (s : WorkerService) (envName : String) (cfg : WorkerServiceConfig) (m : WorkerService),
      s.environments.lookup envName = some (some cfg) →
      s.ApplyEnv envName = .ok m →
      ((cfg.imageConfig.image.build.isZero = false ∨ cfg.imageConfig.image.location.isSome = true) →
        m.config.imageConfig.image.build = cfg.imageConfig.image.build ∧
        m.config.imageConfig.image.location = cfg.imageConfig.image.location) ∧
      (cfg.imageConfig.image.build.isZero = true → cfg.imageConfig.image.location = none →
        m.config.imageConfig.image.build = s.config.imageConfig.image.build ∧
        m.config.imageConfig.image.location = s.config.imageConfig.image.location)) ∧
    (∀ (s : BackendService) (envName : String) (cfg : BackendServiceConfig) (m : BackendService),
      s.environments.lookup envName = some (some cfg) →
      s.ApplyEnv envName = .ok m →
      cfg.imageConfig.serviceImageWithPort.image.build.isZero = true →
      cfg.imageConfig.serviceImageWithPort.image.location = none →
      m.config.imageConfig.serviceImageWithPort.image.build =
        s.config.imageConfig.serviceImageWithPort.image.build ∧
      m.config.imageConfig.serviceImageWithPort.image.location =
        s.config.imageConfig.serviceImageWithPort.image.location) := by
  constructor
  · intro s envName cfg m hl happ
    have himg : m.config.imageConfig.image =
        transformImage s.config.imageConfig.image cfg.imageConfig.image := by
      cases hemp : cfg.taskConfig.count.IsEmpty <;>
        simp [WorkerService.ApplyEnv, hl, hemp] at happ <;>
        subst happ <;>
        simp [mergeWorkerServiceConfig, mergeImageWithHealthcheck]
    constructor
    · intro h
      rw [himg]
      exact transformImage_pair _ _ h
    · intro h1 h2
      rw [himg, transformImage_id _ _ h1 h2]
      exact ⟨rfl, rfl⟩
  · intro s envName cfg m hl happ hz hloc
    have himg : m.config.imageConfig.serviceImageWithPort.image =
        mergeImage s.config.imageConfig.serviceImageWithPort.image
          cfg.imageConfig.serviceImageWithPort.image := by
      cases hemp : cfg.taskConfig.count.IsEmpty <;>
        simp [BackendService.ApplyEnv, hl, hemp] at happ <;>
        subst happ <;>
        simp [mergeBackendServiceConfig, mergeImageWithPortAndHealthcheck]
    rw [himg]
    simp [mergeImage, mergeBuildArgsOrString_of_zero _ _ hz, hloc, overrideIfSet]

def c3OverlayImage : Image :=
  { Image.zero with
    build := { buildString := some "./Dockerfile", buildArgs := DockerBuildArgs.zero } }

def c3OverlayCfg : BackendServiceConfig :=
  { BackendServiceConfig.zero with
    imageConfig := { serviceImageWithPort := { image := c3OverlayImage, port := none }
                     healthCheck := none } }

def c3Base : BackendService :=
  { newDefaultBackendService with
    config := { newDefaultBackendService.config with
      imageConfig :=
        { serviceImageWithPort :=
            { image := { Image.zero with location := some "nginx" }, port := some 80 }
          healthCheck := none } }
    environments := [("prod", some c3OverlayCfg)] }

def c3Resolved : BackendService :=
  match c3Base.ApplyEnv "prod" with
  | .ok m => m
  | .error _ => c3Base

/-- C3 counterexample: in the backend service's ApplyEnv the overlay
image sets Build (and leaves Location zero), yet the resolved image
pairs the overlay's fresh Build with the stale base Location `nginx`
instead of carrying the overlay's values for both fields. -/
theorem C3_counterexample :
    c3Base.ApplyEnv "prod" = .ok c3Resolved ∧
    c3OverlayImage.build.isZero = false ∧
    c3OverlayImage.location = none ∧
    c3Resolved.config.imageConfig.serviceImageWithPort.image.build.buildString =
      some "./Dockerfile" ∧
    c3Resolved.config.imageConfig.serviceImageWithPort.image.location = some "nginx" :=
  ⟨by decide, by decide, by decide, by decide, by decide⟩

def c3WorkerOverlayCfg : WorkerServiceConfig :=
  { WorkerServiceConfig.zero with
    imageConfig := { image := c3OverlayImage, healthCheck := none } }

def c3Worker : WorkerService :=
  { newDefaultWorkerService with
    config := { newDefaultWorkerService.config with
      imageConfig := { image := { Image.zero with location := some "nginx" }
                       healthCheck := none } }
    environments := [("prod", some c3WorkerOverlayCfg)] }

def c3WorkerResolved : WorkerService :=
  match c3Worker.ApplyEnv "prod" with
  | .ok m => m
  | .error _ => c3Worker

def c3NeitherBase : BackendService :=
  { newDefaultBackendService with
    config := { newDefaultBackendService.config with
      imageConfig :=
        { serviceImageWithPort :=
            { image := { Image.zero with location := some "nginx" }, port := some 80 }
          healthCheck := none } }
    environments := [("prod", some BackendServiceConfig.zero)] }

def c3NeitherResolved : BackendService :=
  match c3NeitherBase.ApplyEnv "prod" with
  | .ok m => m
  | .error _ => c3NeitherBase

/-- C3 witness: on the worker service, an overlay image setting only
Build replaces both Build and Location atomically (the stale base
location `nginx` is dropped); on the backend service, an overlay image
setting neither Build nor Location leaves both base fields. -/
theorem C3_witness :
    (c3WorkerResolved.config.imageConfig.image.build = c3WorkerOverlayCfg.imageConfig.image.build ∧
     c3WorkerResolved.config.imageConfig.image.location =
       c3WorkerOverlayCfg.imageConfig.image.location ∧
     c3WorkerOverlayCfg.imageConfig.image.location = none) ∧
    (c3NeitherResolved.config.imageConfig.serviceImageWithPort.image.build =
       c3NeitherBase.config.imageConfig.serviceImageWithPort.image.build ∧
     c3NeitherResolved.config.imageConfig.serviceImageWithPort.image.location =
       c3NeitherBase.config.imageConfig.serviceImageWithPort.image.location) :=
  have h := (C3_atomic_build_location.1 c3Worker "prod" c3WorkerOverlayCfg c3WorkerResolved
      (by decide) (by decide)).1 (Or.inl (by decide))
  ⟨⟨h.1, h.2, by decide⟩,
   C3_atomic_build_location.2 c3NeitherBase "prod" BackendServiceConfig.zero c3NeitherResolved
     (by decide) (by decide) (by decide) (by decide)⟩

/-- C4 (amended): both union decoders attempt the structured form first;
a non-empty structured value is accepted — the build union clears its
scalar fallback while the exec union leaves its scalar slot untouched;
a type mismatch (with the target still empty) or an empty structured
value falls through to the scalar form; a scalar failure after that
surfaces the union-decode error naming the field; a structured failure
of any other kind propagates; and a bare string build field decodes to
the scalar form even though the structured attempt runs first. -/
theorem C4_union_decode_order :
    (∀ (b : BuildArgsOrString) (n : YamlNode),
      (∀ args, decodeDockerBuildArgs b.buildArgs n = .ok args → args.isEmpty = false →
        b.UnmarshalYAML n = .ok { buildString := none, buildArgs := args }) ∧
      (∀ args s, decodeDockerBuildArgs b.buildArgs n = .ok args → args.isEmpty = true →
        decodeOptStr n = .ok s →
        b.UnmarshalYAML n = .ok { buildString := s, buildArgs := args }) ∧
      (∀ args e, decodeDockerBuildArgs b.buildArgs n = .ok args → args.isEmpty = true →
        decodeOptStr n = .error e → b.UnmarshalYAML n = .error .unmarshalBuildOpts) ∧
      (b.buildArgs.isEmpty = true → decodeDockerBuildArgs b.buildArgs n = .error .typeErr →
        (∀ s, decodeOptStr n = .ok s → b.UnmarshalYAML n = .ok { b with buildString := s }) ∧
        (∀ e, decodeOptStr n = .error e → b.UnmarshalYAML n = .error .unmarshalBuildOpts)) ∧
      (∀ e, decodeDockerBuildArgs b.buildArgs n = .error e → e ≠ .typeErr →
        b.UnmarshalYAML n = .error e)) ∧
    (∀ (ec : ExecuteCommand) (n : YamlNode),
      (∀ cfg, decodeExecuteCommandConfig ec.config n = .ok cfg → cfg.IsEmpty = false →
        ec.UnmarshalYAML n = .ok { enable := ec.enable, config := cfg }) ∧
      (∀ cfg v, decodeExecuteCommandConfig ec.config n = .ok cfg → cfg.IsEmpty = true →
        decodeOptBool n = .ok v →
        ec.UnmarshalYAML n = .ok { enable := v, config := cfg }) ∧
      (∀ cfg e, decodeExecuteCommandConfig ec.config n = .ok cfg → cfg.IsEmpty = true →
        decodeOptBool n = .error e → ec.UnmarshalYAML n = .error .unmarshalExec) ∧
      (ec.config.IsEmpty = true → decodeExecuteCommandConfig ec.config n = .error .typeErr →
        (∀ v, decodeOptBool n = .ok v → ec.UnmarshalYAML n = .ok { ec with enable := v }) ∧
        (∀ e, decodeOptBool n = .error e → ec.UnmarshalYAML n = .error .unmarshalExec)) ∧
      (∀ e, decodeExecuteCommandConfig ec.config n = .error e → e ≠ .typeErr →
        ec.UnmarshalYAML n = .error e)) ∧
    BuildArgsOrString.UnmarshalYAML BuildArgsOrString.zero (.str "./extra/Dockerfile") =
      .ok { buildString := some "./extra/Dockerfile", buildArgs := DockerBuildArgs.zero } := by
  refine ⟨fun b n => ⟨?_, ?_, ?_, ?_, ?_⟩, fun ec n => ⟨?_, ?_, ?_, ?_, ?_⟩, by decide⟩
  · intro args hd hne
    simp [BuildArgsOrString.UnmarshalYAML, hd, hne]
  · intro args s hd he hs
    simp [BuildArgsOrString.UnmarshalYAML, hd, he, hs]
  · intro args e hd he hs
    simp [BuildArgsOrString.UnmarshalYAML, hd, he, hs]
  · intro hbe hd
    constructor
    · intro s hs
      simp [BuildArgsOrString.UnmarshalYAML, hd, hbe, hs]
    · intro e hs
      simp [BuildArgsOrString.UnmarshalYAML, hd, hbe, hs]
  · intro e hd hne
    cases e <;> simp [BuildArgsOrString.UnmarshalYAML, hd]
    exact absurd rfl hne
  · intro cfg hd hne
    simp [ExecuteCommand.UnmarshalYAML, hd, hne]
  · intro cfg v hd he hv
    simp [ExecuteCommand.UnmarshalYAML, hd, he, hv]
  · intro cfg e hd he hv
    simp [ExecuteCommand.UnmarshalYAML, hd, he, hv]
  · intro hbe hd
    constructor
    · intro v hv
      simp [ExecuteCommand.UnmarshalYAML, hd, hbe, hv]
    · intro e hv
      simp [ExecuteCommand.UnmarshalYAML, hd, hbe, hv]
  · intro e hd hne
    cases e <;> simp [ExecuteCommand.UnmarshalYAML, hd]
    exact absurd rfl hne

def c4ExecInit : ExecuteCommand := { enable := some false, config := { enable := none } }

def c4Node : YamlNode := .map [("enable", .bool true)]

/-- C4 counterexample: decoding the structured exec form `enable: true`
over the defaulted value (whose scalar Enable is already `false`)
accepts the non-empty structured value but leaves the scalar slot set —
it is not cleared as the claim states for every union field. -/
theorem C4_counterexample :
    decodeExecuteCommandConfig c4ExecInit.config c4Node = .ok { enable := some true } ∧
    ExecuteCommandConfig.IsEmpty { enable := some true } = false ∧
    c4ExecInit.UnmarshalYAML c4Node =
      .ok { enable := some false, config := { enable := some true } } ∧
    ({ enable := some false, config := { enable := some true } } : ExecuteCommand).enable ≠
      none :=
  ⟨by decide, by decide, by decide, by decide⟩

/-- C4 witness: a bare string build field hits the structured attempt
first (a type mismatch on the empty target) and decodes to the scalar
form. -/
theorem C4_witness :
    BuildArgsOrString.zero.buildArgs.isEmpty = true ∧
    decodeDockerBuildArgs BuildArgsOrString.zero.buildArgs (.str "p/Dockerfile") =
      .error .typeErr ∧
    BuildArgsOrString.UnmarshalYAML BuildArgsOrString.zero (.str "p/Dockerfile") =
      .ok { BuildArgsOrString.zero with buildString := some "p/Dockerfile" } :=
  ⟨by decide, by decide,
   ((C4_union_decode_order.1 BuildArgsOrString.zero (.str "p/Dockerfile")).2.2.2.1
      (by decide) (by decide)).1 (some "p/Dockerfile") (by decide)⟩

theorem applyIfNotSet_default_fills (hc : ContainerHealthCheck) :
    (hc.applyIfNotSet newDefaultContainerHealthCheck).interval.isSome = true ∧
    (hc.applyIfNotSet newDefaultContainerHealthCheck).retries.isSome = true ∧
    (hc.applyIfNotSet newDefaultContainerHealthCheck).timeout.isSome = true ∧
    (hc.applyIfNotSet newDefaultContainerHealthCheck).startPeriod.isSome = true := by
  rcases hc with ⟨c, i, r, t, sp⟩
  cases i <;> cases r <;> cases t <;> cases sp <;>
    simp [ContainerHealthCheck.applyIfNotSet, fillIfUnset, newDefaultContainerHealthCheck]

theorem healthCheckOpts_isOk_of_filled (i : imageWithPortAndHealthcheck)
    (hc : ContainerHealthCheck) (hhc : i.healthCheck = some hc)
    (h1 : hc.interval.isSome = true) (h2 : hc.retries.isSome = true)
    (h3 : hc.timeout.isSome = true) (h4 : hc.startPeriod.isSome = true) :
    (i.HealthCheckOpts).isOk = true := by
  obtain ⟨iv, hiv⟩ := Option.isSome_iff_exists.mp h1
  obtain ⟨r, hr⟩ := Option.isSome_iff_exists.mp h2
  obtain ⟨t, ht⟩ := Option.isSome_iff_exists.mp h3
  obtain ⟨sp, hsp⟩ := Option.isSome_iff_exists.mp h4
  simp [imageWithPortAndHealthcheck.HealthCheckOpts, hhc, hiv, hr, ht, hsp,
    Except.isOk, Except.toBool]

/-- C10: HealthCheckOpts is nil exactly when the health check is nil;
with all four numeric fields set the conversion is well defined and
produces the dereferenced values; the backfill applyIfNotSet with the
default health check establishes that precondition, and it holds for
every backend service produced by UnmarshalWorkload; a health check with
a missing field reaches the nil-dereference panic, modelled as the error
branch. -/
theorem C10_healthcheck_opts_totality :
    (∀ i : imageWithPortAndHealthcheck, i.HealthCheckOpts = .ok none ↔ i.healthCheck = none) ∧
    (∀ (i : imageWithPortAndHealthcheck) (hc : ContainerHealthCheck) (iv r t sp : Int),
      i.healthCheck = some hc → hc.interval = some iv → hc.retries = some r →
      hc.timeout = some t → hc.startPeriod = some sp →
      i.HealthCheckOpts = .ok (some
        { command := hc.command, interval := nanosToSeconds iv, retries := r
          startPeriod := nanosToSeconds sp, timeout := nanosToSeconds t })) ∧
    (∀ hc : ContainerHealthCheck,
      (hc.applyIfNotSet newDefaultContainerHealthCheck).interval.isSome = true ∧
      (hc.applyIfNotSet newDefaultContainerHealthCheck).retries.isSome = true ∧
      (hc.applyIfNotSet newDefaultContainerHealthCheck).timeout.isSome = true ∧
      (hc.applyIfNotSet newDefaultContainerHealthCheck).startPeriod.isSome = true) ∧
    (∀ (n : YamlNode) (m : BackendService),
      UnmarshalWorkload n = .ok (.backend m) →
      (m.config.imageConfig.HealthCheckOpts).isOk = true) ∧
    imageWithPortAndHealthcheck.HealthCheckOpts
        { serviceImageWithPort := { image := Image.zero, port := none }
          healthCheck := some ContainerHealthCheck.zero } =
      .error "runtime error: invalid memory address or nil pointer dereference" := by
  refine ⟨?_, ?_, applyIfNotSet_default_fills, ?_, by decide⟩
  · intro i
    cases hhc : i.healthCheck with
    | none => simp [imageWithPortAndHealthcheck.HealthCheckOpts, hhc]
    | some hc =>
      rcases hc with ⟨c, i1, r1, t1, s1⟩
      cases i1 <;> cases r1 <;> cases s1 <;> cases t1 <;>
        simp [imageWithPortAndHealthcheck.HealthCheckOpts, hhc]
  · intro i hc iv r t sp hhc hiv hr ht hsp
    simp [imageWithPortAndHealthcheck.HealthCheckOpts, hhc, hiv, hr, ht, hsp]
  · intro n m h
    have d4 : BackendServiceType ≠ LoadBalancedWebServiceType := by decide
    have d5 : ScheduledJobType ≠ LoadBalancedWebServiceType := by decide
    have d6 : ScheduledJobType ≠ BackendServiceType := by decide
    cases hw : decodeWorkload { name := none, type := none } n with
    | error e => simp [UnmarshalWorkload, hw] at h
    | ok am =>
      by_cases h1 : stringValue am.type = LoadBalancedWebServiceType
      · cases hd : decodeLoadBalancedWebService newDefaultLoadBalancedWebService n <;>
          simp [UnmarshalWorkload, hw, h1, hd, Except.map] at h
      · by_cases h2 : stringValue am.type = BackendServiceType
        · cases hd : decodeBackendService newDefaultBackendService n with
          | error e => simp [UnmarshalWorkload, hw, h1, h2, hd, d4] at h
          | ok m0 =>
            have hm : applyBackendHealthCheckDefaults m0 = m := by
              simpa [UnmarshalWorkload, hw, h1, h2, hd, d4] using h
            subst hm
            cases hhc : m0.config.imageConfig.healthCheck with
            | none =>
              simp [applyBackendHealthCheckDefaults, hhc,
                imageWithPortAndHealthcheck.HealthCheckOpts, Except.isOk, Except.toBool]
            | some hc0 =>
              have hfill := applyIfNotSet_default_fills hc0
              refine healthCheckOpts_isOk_of_filled _
                  (hc0.applyIfNotSet newDefaultContainerHealthCheck) ?_
                  hfill.1 hfill.2.1 hfill.2.2.1 hfill.2.2.2
              simp [applyBackendHealthCheckDefaults, hhc]
        · by_cases h3 : stringValue am.type = ScheduledJobType
          · cases hd : decodeScheduledJob newDefaultScheduledJob n <;>
              simp [UnmarshalWorkload, hw, h1, h2, h3, hd, d5, d6, Except.map] at h
          · simp [UnmarshalWorkload, hw, h1, h2, h3] at h

def c10HC : ContainerHealthCheck :=
  { command := some ["CMD-SHELL", "curl -f http://localhost/ || exit 1"]
    interval := some (10 * 1000000000), retries := some 2
    timeout := some (5 * 1000000000), startPeriod := some 0 }

def c10Image : imageWithPortAndHealthcheck :=
  { serviceImageWithPort := { image := Image.zero, port := some 8080 }
    healthCheck := some c10HC }

/-- C10 witness: a fully set health check converts without reaching the
panic branch. -/
theorem C10_witness :
    c10Image.HealthCheckOpts = .ok (some
      { command := c10HC.command, interval := nanosToSeconds (10 * 1000000000), retries := 2
        startPeriod := nanosToSeconds 0, timeout := nanosToSeconds (5 * 1000000000) }) :=
  C10_healthcheck_opts_totality.2.1 c10Image c10HC (10 * 1000000000) 2 (5 * 1000000000) 0
    (by decide) (by decide) (by decide) (by decide) (by decide)

/-- C8 (amended): UnmarshalWorkload propagates a base-shape parse
failure; dispatches the three declared types it recognizes — web
service, backend service (with health-check defaults backfilled) and
scheduled job — returning the typed manifest when the typed decode
succeeds and its error when it fails; and returns
ErrInvalidWorkloadType for every other declared type, including
worker-service. -/
theorem C8_workload_type_dispatch :
    (∀ (n : YamlNode) (e : ManifestErr),
      decodeWorkload { name := none, type := none } n = .error e →
      UnmarshalWorkload n = .error e) ∧
    (∀ (n : YamlNode) (w : Workload),
      decodeWorkload { name := none, type := none } n = .ok w →
      stringValue w.type ≠ LoadBalancedWebServiceType →
      stringValue w.type ≠ BackendServiceType →
      stringValue w.type ≠ ScheduledJobType →
      UnmarshalWorkload n = .error (.invalidWorkloadType (stringValue w.type))) ∧
    (∀ (n : YamlNode) (w : Workload),
      decodeWorkload { name := none, type := none } n = .ok w →
      stringValue w.type = WorkerServiceType →
      UnmarshalWorkload n = .error (.invalidWorkloadType WorkerServiceType)) ∧
    (∀ (n : YamlNode) (w : Workload) (m : LoadBalancedWebService),
      decodeWorkload { name := none, type := none } n = .ok w →
      stringValue w.type = LoadBalancedWebServiceType →
      decodeLoadBalancedWebService newDefaultLoadBalancedWebService n = .ok m →
      UnmarshalWorkload n = .ok (.lbws m)) ∧
    (∀ (n : YamlNode) (w : Workload) (m : BackendService),
      decodeWorkload { name := none, type := none } n = .ok w →
      stringValue w.type = BackendServiceType →
      decodeBackendService newDefaultBackendService n = .ok m →
      UnmarshalWorkload n = .ok (.backend (applyBackendHealthCheckDefaults m))) ∧
    (∀ (n : YamlNode) (w : Workload) (m : ScheduledJob),
      decodeWorkload { name := none, type := none } n = .ok w →
      stringValue w.type = ScheduledJobType →
      decodeScheduledJob newDefaultScheduledJob n = .ok m →
      UnmarshalWorkload n = .ok (.scheduled m)) ∧
    (∀ (n : YamlNode) (w : Workload) (e : ManifestErr),
      decodeWorkload { name := none, type := none } n = .ok w →
      stringValue w.type = BackendServiceType →
      decodeBackendService newDefaultBackendService n = .error e →
      UnmarshalWorkload n = .error e) ∧
    (∀ (n : YamlNode) (w : Workload) (e : ManifestErr),
      decodeWorkload { name := none, type := none } n = .ok w →
      stringValue w.type = LoadBalancedWebServiceType →
      decodeLoadBalancedWebService newDefaultLoadBalancedWebService n = .error e →
      UnmarshalWorkload n = .error e) ∧
    (∀ (n : YamlNode) (w : Workload) (e : ManifestErr),
      decodeWorkload { name := none, type := none } n = .ok w →
      stringValue w.type = ScheduledJobType →
      decodeScheduledJob newDefaultScheduledJob n = .error e →
      UnmarshalWorkload n = .error e) := by
  have d1 : WorkerServiceType ≠ LoadBalancedWebServiceType := by decide
  have d2 : WorkerServiceType ≠ BackendServiceType := by decide
  have d3 : WorkerServiceType ≠ ScheduledJobType := by decide
  have d4 : BackendServiceType ≠ LoadBalancedWebServiceType := by decide
  have d5 : ScheduledJobType ≠ LoadBalancedWebServiceType := by decide
  have d6 : ScheduledJobType ≠ BackendServiceType := by decide
  refine ⟨?_, ?_, ?_, ?_, ?_, ?_, ?_, ?_, ?_⟩
  · intro n e hw
    simp [UnmarshalWorkload, hw]
  · intro n w hw h1 h2 h3
    simp [UnmarshalWorkload, hw, h1, h2, h3]
  · intro n w hw ht
    simp [UnmarshalWorkload, hw, ht, d1, d2, d3]
  · intro n w m hw ht hd
    simp [UnmarshalWorkload, hw, ht, hd, Except.map]
  · intro n w m hw ht hd
    simp [UnmarshalWorkload, hw, ht, hd, d4]
  · intro n w m hw ht hd
    simp [UnmarshalWorkload, hw, ht, hd, d5, d6, Except.map]
  · intro n w e hw ht hd
    simp [UnmarshalWorkload, hw, ht, hd, d4]
  · intro n w e hw ht hd
    simp [UnmarshalWorkload, hw, ht, hd, Except.map]
  · intro n w e hw ht hd
    simp [UnmarshalWorkload, hw, ht, hd, d5, d6, Except.map]

def c8WorkerDoc : YamlNode := .map [("name", .str "api"), ("type", .str "worker-service")]

/-- C8 counterexample: a document declaring the worker-service kind —
one of the four enum values the claim covers — is rejected with
ErrInvalidWorkloadType instead of producing a typed manifest. -/
theorem C8_counterexample :
    UnmarshalWorkload c8WorkerDoc = .error (.invalidWorkloadType WorkerServiceType) ∧
    WorkerServiceType = "worker-service" := ⟨by decide, by decide⟩

def c8BackendDoc : YamlNode :=
  .map [("name", .str "api"), ("type", .str "backend-service"),
        ("image", .map [("build", .str "./Dockerfile"), ("port", .int 8080)])]

def c8Workload : Workload := { name := some "api", type := some "backend-service" }

def c8Decoded : BackendService :=
  match decodeBackendService newDefaultBackendService c8BackendDoc with
  | .ok m => m
  | .error _ => newDefaultBackendService

/-- C8 witness: a backend-service document dispatches to the typed
backend decode and returns the typed manifest. -/
theorem C8_witness :
    UnmarshalWorkload c8BackendDoc =
      .ok (.backend (applyBackendHealthCheckDefaults c8Decoded)) :=
  C8_workload_type_dispatch.2.2.2.2.1 c8BackendDoc c8Workload c8Decoded
    (by decide) (by decide) (by decide)
